import Mathlib

/-!
Verification of the SpectraView SDK event pipeline (src/spectraview.js).

This file gives a shallow embedding of the buffering / batching / delivery
pipeline of the `SpectraViewSDK` class and proves or refutes the frozen
claims about it.  Modelling conventions:

* JavaScript values that can appear in event payloads are modelled by the
  inductive type `JValue`.  The constructor `junser` stands for a value on
  which `JSON.stringify` throws (a circular structure or a BigInt); all
  other constructors are serializable.
* External library calls are parameters: the `pako.deflate` /
  `String.fromCharCode` / `btoa` chain of `compressEvents` is a parameter
  `enc : String → Option String` (`none` models a thrown exception in that
  chain); the regex rewriting inside `sanitizeData` is a parameter
  `rw : String → String` (the spec treats the sanitizer's string rewriting
  as an external pure function); browser-derived context objects
  (`window.location.href` etc.) are passed in as a `ctx : JValue` argument;
  `Date.now()` and `Math.random()` are `now`/`rand : Nat` arguments.
* Asynchronous delivery is modelled by a boolean oracle `deliveryOk`
  (`false` covers both a rejected `fetch` and a non-2xx response, which the
  code treats identically), and events enqueued by handlers that run while
  a flush is awaiting delivery are passed as a `MidFlight` record appended
  to the buffers after the snapshot-and-clear, exactly where the event
  loop would interleave them.
* Fallible synchronous code (`JSON.stringify` inside `sanitizeData`)
  returns `Except`; a `.error` result models an exception propagating out
  of the corresponding JS function.
* The `localforage` store is a list of key/record pairs in insertion
  order.  The string keys `event_<timestamp>_<random>` and
  `batch_<timestamp>` are modelled by the inductive `StoreKey`, whose
  `isEventKey` discriminator corresponds to `key.startsWith('event_')`
  (no `batch_…` string starts with `event_`, and distinct
  timestamp/random pairs give distinct keys).
* Timers, the rrweb recording engine, performance counters and the
  heartbeat are outside every claim and are not modelled; the periodic
  batch-timer callback body is modelled by `batchTick`.
-/

namespace SpectraView

/-- A JavaScript value as it can appear in an event payload.  `junser`
models a value on which `JSON.stringify` throws (circular structure or
BigInt); every other constructor is JSON-serializable. -/
inductive JValue where
  | jnull : JValue
  | jbool (b : Bool) : JValue
  | jnum (n : Int) : JValue
  | jstr (s : String) : JValue
  | junser : JValue
  | jarr (xs : List JValue) : JValue
  | jobj (fields : List (String × JValue)) : JValue

mutual
/-- Models `JSON.stringify` on a single value: `none` models a thrown
`TypeError` (some `junser` node occurs inside), `some s` the produced
JSON text. -/
def stringifyV : JValue → Option String
  | .jnull => some "null"
  | .jbool b => some (if b then "true" else "false")
  | .jnum n => some (toString n)
  | .jstr s => some ("\"" ++ s ++ "\"")
  | .junser => none
  | .jarr xs =>
      match stringifyL xs with
      | some ss => some ("[" ++ String.intercalate "," ss ++ "]")
      | none => none
  | .jobj fs =>
      match stringifyF fs with
      | some ss => some ("\x7b" ++ String.intercalate "," ss ++ "\x7d")
      | none => none

/-- Stringify every element of an array payload. -/
def stringifyL : List JValue → Option (List String)
  | [] => some []
  | x :: xs =>
      match stringifyV x, stringifyL xs with
      | some s, some ss => some (s :: ss)
      | _, _ => none

/-- Stringify every field of an object payload. -/
def stringifyF : List (String × JValue) → Option (List String)
  | [] => some []
  | (k, v) :: fs =>
      match stringifyV v, stringifyF fs with
      | some s, some ss => some (("\"" ++ k ++ "\":" ++ s) :: ss)
      | _, _ => none
end

/-- Models JavaScript falsiness of a payload value, as tested by
`if (!data) return data;` at the top of `sanitizeData`. -/
def isFalsy : JValue → Bool
  | .jnull => true
  | .jbool b => !b
  | .jnum n => n == 0
  | .jstr s => s == ""
  | _ => false

mutual
/-- The recursive `sanitizeValue` helper of `sanitizeData`: applies the
string rewriting `rw` to every string, descends into arrays and objects,
and leaves every other value unchanged. -/
def sanitizeValue (rw : String → String) : JValue → JValue
  | .jstr s => .jstr (rw s)
  | .jarr xs => .jarr (sanitizeL rw xs)
  | .jobj fs => .jobj (sanitizeF rw fs)
  | v => v

/-- Sanitize every element of an array. -/
def sanitizeL (rw : String → String) : List JValue → List JValue
  | [] => []
  | x :: xs => sanitizeValue rw x :: sanitizeL rw xs

/-- Sanitize every field of an object. -/
def sanitizeF (rw : String → String) : List (String × JValue) → List (String × JValue)
  | [] => []
  | (k, v) :: fs => (k, sanitizeValue rw v) :: sanitizeF rw fs
end

/-- Models `sanitizeData(data)`.  The deep clone
`JSON.parse(JSON.stringify(data))` is the identity on serializable values
and throws a `TypeError` when `data` contains a non-serializable node;
there is no `try`/`catch` in the source, so the thrown error escapes and
is modelled as `.error`. -/
def sanitizeData (rw : String → String) (data : JValue) : Except String JValue :=
  if isFalsy data then .ok data
  else
    match stringifyV data with
    | none => .error "TypeError: Converting circular structure to JSON"
    | some _ => .ok (sanitizeValue rw data)

/-- Last-wins field lookup on a field list, matching JavaScript object
semantics where a later duplicate key overwrites an earlier one (field
lists built by object spread may contain duplicates). -/
def fieldGet (fs : List (String × JValue)) (key : String) : Option JValue :=
  fs.foldl (fun acc kv => if kv.1 == key then some kv.2 else acc) none

/-- Field lookup on an object value; `none` on every other value. -/
def jfieldGet (v : JValue) (key : String) : Option JValue :=
  match v with
  | .jobj fs => fieldGet fs key
  | _ => none

/-- Models the object spread `{...a, ...b}`: keys of `a` keep their
position (values overwritten by `b` where present), keys only in `b` are
appended in order. -/
def jmergeFields (a b : List (String × JValue)) : List (String × JValue) :=
  a.map (fun kv => match fieldGet b kv.1 with | some v => (kv.1, v) | none => kv) ++
    b.filter (fun kv => (fieldGet a kv.1).isNone)

/-- The value returned by `compressEvents`: either the base64 transport
string (`compressed: true`) or the original event array unchanged
(`compressed: false`). -/
structure CompressResult where
  compressed : Bool
  data : String ⊕ List JValue

/-- Models `compressEvents(events)`.  The body first runs
`JSON.stringify(events)` (modelled by `stringifyV` on the array value),
then the external `pako.deflate` / `String.fromCharCode` / `btoa` chain
(modelled by the parameter `enc`; `enc s = none` models a thrown
exception such as the `RangeError` of `Function.apply` on large arrays).
Every failure is caught and degrades to the uncompressed shape; the
function is total, modelling that `compressEvents` never throws. -/
def compressEvents (enc : String → Option String) (events : List JValue) : CompressResult :=
  match stringifyV (JValue.jarr events) with
  | none => ⟨false, Sum.inr events⟩
  | some s =>
      match enc s with
      | some b64 => ⟨true, Sum.inl b64⟩
      | none => ⟨false, Sum.inr events⟩

/-- Whether the `events` slot of a payload survives `JSON.stringify`:
a base64 string always does, a raw array only if serializable. -/
def compressSerializable : CompressResult → Bool
  | ⟨_, Sum.inl _⟩ => true
  | ⟨_, Sum.inr evs⟩ => (stringifyV (JValue.jarr evs)).isSome

/-- Whether `JSON.stringify(payload)` succeeds for a delivery payload
(the remaining payload slots are always serializable). -/
def payloadSerializable (comp : CompressResult) (customEvents errors : List JValue) : Bool :=
  compressSerializable comp && (stringifyV (JValue.jarr customEvents)).isSome &&
    (stringifyV (JValue.jarr errors)).isSome

/-- A key of the durable overflow store.  `eventKey ts r` models the
string `event_<ts>_<r>` produced by `saveEventLocal`, `batchKey ts` the
string `batch_<ts>` produced by `saveFailedBatch`; `isEventKey` is the
`key.startsWith('event_')` test (a `batch_…` string never starts with
`event_`, and distinct timestamp/random pairs give distinct strings). -/
inductive StoreKey where
  | eventKey (timestamp : Nat) (rand : Nat)
  | batchKey (timestamp : Nat)
deriving DecidableEq

/-- The `key.startsWith('event_')` test used by `clearSyncedEvents`. -/
def isEventKey : StoreKey → Bool
  | .eventKey _ _ => true
  | .batchKey _ => false

/-- A record of the durable overflow store: either one mirrored visual
event (`saveEventLocal`) or one failed batch (`saveFailedBatch`). -/
inductive StoreRecord where
  | single (event : JValue) (sessionId : String) (timestamp : Nat) (synced : Bool)
  | batch (events : List JValue) (customEvents : List JValue) (errors : List JValue)
      (sessionId : String) (timestamp : Nat) (retryCount : Nat)

/-- The `item.synced` read of `clearSyncedEvents`; on a batch record the
property is absent in JavaScript and reads as a falsy `undefined`. -/
def recordSynced : StoreRecord → Bool
  | .single _ _ _ synced => synced
  | .batch _ _ _ _ _ _ => false

/-- The `item.timestamp || 0` read of `cleanOldEvents` (every record is
written with a numeric timestamp). -/
def timestampOf : StoreRecord → Nat
  | .single _ _ ts _ => ts
  | .batch _ _ _ _ ts _ => ts

/-- The durable overflow store, in insertion order. -/
abbrev Store := List (StoreKey × StoreRecord)

/-- One insertion step of the stable sort performed by
`items.sort((a, b) => b.timestamp - a.timestamp)`: descending by
timestamp, equal timestamps keep their relative order. -/
def insertDesc (x : StoreKey × Nat) : List (StoreKey × Nat) → List (StoreKey × Nat)
  | [] => [x]
  | y :: ys => if y.2 < x.2 then x :: y :: ys else y :: insertDesc x ys

/-- The stable descending-by-timestamp sort of `cleanOldEvents`. -/
def sortByTimestampDesc : List (StoreKey × Nat) → List (StoreKey × Nat)
  | [] => []
  | x :: xs => insertDesc x (sortByTimestampDesc xs)

/-- Models `cleanOldEvents()`: list every record's key and timestamp,
sort descending by timestamp, keep only the `maxLocalEvents` most recent
and remove every other key from the store. -/
def cleanOldEvents (maxLocalEvents : Nat) (store : Store) : Store :=
  let items := store.map (fun kr => (kr.1, timestampOf kr.2))
  let sorted := sortByTimestampDesc items
  let toDelete := sorted.drop maxLocalEvents
  store.filter (fun kr => !(toDelete.any (fun item => item.1 == kr.1)))

/-- Models `saveEventLocal(event)`: insert a fresh
`event_<now>_<rand>` record with `synced: false`, then run
`cleanOldEvents` if the total key count exceeds `maxLocalEvents`. -/
def saveEventLocal (maxLocalEvents : Nat) (sessionId : String) (event : JValue)
    (now rand : Nat) (store : Store) : Store :=
  let store1 := store ++ [(StoreKey.eventKey now rand, StoreRecord.single event sessionId now false)]
  if store1.length > maxLocalEvents then cleanOldEvents maxLocalEvents store1 else store1

/-- Models `saveFailedBatch(batch)`: persist the whole failed batch under
a fresh `batch_<now>` key with `retryCount: 0`. -/
def saveFailedBatch (sessionId : String) (now : Nat)
    (events customEvents errors : List JValue) (store : Store) : Store :=
  store ++ [(StoreKey.batchKey now, StoreRecord.batch events customEvents errors sessionId now 0)]

/-- Models `clearSyncedEvents()`: remove exactly the records whose key
starts with `event_` and whose `synced` flag is true; every other record
(in particular every `batch_…` record) is left in place. -/
def clearSyncedEvents (store : Store) : Store :=
  store.filter (fun kr => !(isEventKey kr.1 && recordSynced kr.2))

/-- The mutable fields of the `SpectraViewSDK` instance that the claims
are about: configuration (after `init` applied its defaults), session
identity, the three in-memory buffers and the durable overflow store.
Timers, the rrweb stop handle and the performance counters are not
referenced by any claim and are not modelled. -/
structure SDKState where
  isRecording : Bool
  apiEndpoint : Option String
  apiKey : String
  appId : String
  sessionId : String
  userId : Option String
  batchSize : Nat
  maxLocalEvents : Nat
  enableLocalStorage : Bool
  eventBuffer : List JValue
  customEventBuffer : List JValue
  errorBuffer : List JValue
  store : Store
  sessionMetadata : List (String × JValue)

/-- Events appended to the three buffers by handlers that run while a
flush is suspended awaiting delivery (they land after the
snapshot-and-clear and before the failure handler's `unshift`). -/
structure MidFlight where
  events : List JValue
  customEvents : List JValue
  errors : List JValue

/-- The delivery payload built by `flush` / `flushSync` (the derived
`metadata` counts are omitted: no claim mentions them). -/
structure Payload where
  sessionId : String
  userId : Option String
  appId : String
  events : CompressResult
  customEvents : List JValue
  errors : List JValue

/-- A network emission of the pipeline: an awaited `fetch` POST from
`flush`, or a fire-and-forget `navigator.sendBeacon` from `flushSync`.
The beacon's endpoint is the raw `config.apiEndpoint` value: `none`
models the literal `null` interpolated into the beacon URL when no
endpoint is configured. -/
inductive NetworkCall where
  | fetchCall (endpoint : String) (payload : Payload)
  | beaconCall (endpoint : Option String) (payload : Payload)

/-- The custom-event object literal built inside `captureCustomEvent`,
carrying the active `sessionId` and the sanitized payload. -/
def mkCustomEventObj (sessionId eventType : String) (sd : JValue) (now : Nat)
    (ctx : JValue) : JValue :=
  JValue.jobj [("type", .jstr "custom"), ("eventType", .jstr eventType),
    ("data", sd), ("timestamp", .jnum (Int.ofNat now)),
    ("sessionId", .jstr sessionId), ("context", ctx)]

/-- Models `captureCustomEvent(eventType, data)`: sanitize the payload
(a thrown sanitization error propagates — there is no `try`/`catch` on
this path), build the event object carrying the active `sessionId`,
append it to `customEventBuffer`, and request a flush once that buffer
has reached 10 events (the un-awaited `this.flush()` call is modelled as
the returned request flag). -/
def captureCustomEvent (rw : String → String) (st : SDKState) (eventType : String)
    (data : JValue) (now : Nat) (ctx : JValue) : Except String (SDKState × Bool) :=
  match sanitizeData rw data with
  | .error e => .error e
  | .ok sd =>
      let event := mkCustomEventObj st.sessionId eventType sd now ctx
      let st1 := {st with customEventBuffer := st.customEventBuffer ++ [event]}
      .ok (st1, decide (st1.customEventBuffer.length ≥ 10))

/-- Models `captureError(errorData)`: spread the error data, overwrite
`sessionId`, `timestamp` (`errorData.timestamp || Date.now()`) and
`context`, append to `errorBuffer`, and always request an immediate
flush (the un-awaited `this.flush()` is the returned flag). -/
def captureError (st : SDKState) (errorData : List (String × JValue)) (now : Nat)
    (ctx : JValue) : SDKState × Bool :=
  let tsField :=
    match fieldGet errorData "timestamp" with
    | some t => if isFalsy t then JValue.jnum (Int.ofNat now) else t
    | none => JValue.jnum (Int.ofNat now)
  let event := JValue.jobj (errorData ++ [("sessionId", .jstr st.sessionId),
    ("timestamp", tsField), ("context", ctx)])
  ({st with errorBuffer := st.errorBuffer ++ [event]}, true)

/-- Models `handleRRWebEvent(event)`: push the raw rrweb event directly
onto `eventBuffer`, request a flush when the buffer has reached
`batchSize`, and mirror the event into the overflow store when local
storage is enabled. -/
def handleRRWebEvent (st : SDKState) (event : JValue) (now rand : Nat) : SDKState × Bool :=
  let st1 := {st with eventBuffer := st.eventBuffer ++ [event]}
  let flushReq := decide (st1.eventBuffer.length ≥ st1.batchSize)
  let st2 :=
    if st1.enableLocalStorage then
      {st1 with store := saveEventLocal st1.maxLocalEvents st1.sessionId event now rand st1.store}
    else st1
  (st2, flushReq)

/-- Models the public `capture(eventName, data)`: a no-op unless
recording, otherwise `captureCustomEvent`. -/
def capture (rw : String → String) (st : SDKState) (eventName : String) (data : JValue)
    (now : Nat) (ctx : JValue) : Except String (SDKState × Bool) :=
  if st.isRecording = false then .ok (st, false)
  else captureCustomEvent rw st eventName data now ctx

/-- Models the public `setUser(userId, metadata)`: overwrite
`this.userId`, then capture an `identify` custom event; there is no
`isRecording` guard. -/
def setUser (rw : String → String) (st : SDKState) (userId : String) (metadata : JValue)
    (now : Nat) (ctx : JValue) : Except String (SDKState × Bool) :=
  let st1 := {st with userId := some userId}
  captureCustomEvent rw st1 "identify"
    (JValue.jobj [("userId", .jstr userId), ("metadata", metadata)]) now ctx

/-- Models the public `addContext(context)`: merge into
`sessionMetadata`, then capture a `context` custom event; there is no
`isRecording` guard. -/
def addContext (rw : String → String) (st : SDKState) (context : List (String × JValue))
    (now : Nat) (ctx : JValue) : Except String (SDKState × Bool) :=
  let st1 := {st with sessionMetadata := jmergeFields st.sessionMetadata context}
  captureCustomEvent rw st1 "context" (JValue.jobj context) now ctx

/-- The value returned by the public `exportEvents()` (derived counts
omitted): copies of the three buffers plus session identity, with no
mutation of the state. -/
structure ExportResult where
  events : List JValue
  sessionId : String
  userId : Option String
  appId : String
  customEvents : List JValue
  errors : List JValue

/-- Models `exportEvents()`. -/
def exportEvents (st : SDKState) : ExportResult :=
  ⟨st.eventBuffer, st.sessionId, st.userId, st.appId, st.customEventBuffer, st.errorBuffer⟩

/-- Append the mid-flight enqueues to the buffers of a state. -/
def appendMid (st : SDKState) (mid : MidFlight) : SDKState :=
  {st with eventBuffer := st.eventBuffer ++ mid.events,
           customEventBuffer := st.customEventBuffer ++ mid.customEvents,
           errorBuffer := st.errorBuffer ++ mid.errors}

/-- The success continuation of `flush`: purge synced records from the
overflow store when local storage is enabled. -/
def flushSuccess (st2 : SDKState) : SDKState :=
  if st2.enableLocalStorage then {st2 with store := clearSyncedEvents st2.store} else st2

/-- The `catch` branch of `flush`: `unshift` the snapshot back onto the
front of each buffer (preserving its order, ahead of anything enqueued
mid-flight), then persist the failed batch when local storage is
enabled. -/
def flushFailure (st2 : SDKState) (events customEvents errors : List JValue)
    (now : Nat) : SDKState :=
  let st3 := {st2 with eventBuffer := events ++ st2.eventBuffer,
                       customEventBuffer := customEvents ++ st2.customEventBuffer,
                       errorBuffer := errors ++ st2.errorBuffer}
  if st3.enableLocalStorage then
    {st3 with store := saveFailedBatch st3.sessionId now events customEvents errors st3.store}
  else st3

/-- Models `flush()`.  Snapshot the three buffers; return unchanged if
not recording or all empty; clear the buffers only when an endpoint is
configured; with an endpoint, issue the `fetch` (only when
`JSON.stringify(payload)` succeeds — a stringify throw lands in the same
`catch` as a delivery failure) and take the success or failure
continuation; without an endpoint, issue no call and fall through to the
success continuation. -/
def flush (enc : String → Option String) (st : SDKState) (mid : MidFlight)
    (deliveryOk : Bool) (now : Nat) : SDKState × Option NetworkCall :=
  if st.isRecording = false then (st, none) else
  let events := st.eventBuffer
  let customEvents := st.customEventBuffer
  let errors := st.errorBuffer
  if events.isEmpty && customEvents.isEmpty && errors.isEmpty then (st, none) else
  let st1 :=
    match st.apiEndpoint with
    | some _ => {st with eventBuffer := [], customEventBuffer := [], errorBuffer := []}
    | none => st
  let st2 := appendMid st1 mid
  let comp := compressEvents enc events
  match st.apiEndpoint with
  | none => (flushSuccess st2, none)
  | some ep =>
      let payload : Payload := ⟨st.sessionId, st.userId, st.appId, comp, customEvents, errors⟩
      if payloadSerializable comp customEvents errors then
        if deliveryOk then (flushSuccess st2, some (.fetchCall ep payload))
        else (flushFailure st2 events customEvents errors now, some (.fetchCall ep payload))
      else (flushFailure st2 events customEvents errors now, none)

/-- Models `flushSync()`: never mutates the buffers; unless not
recording or all buffers are empty, builds the same payload and emits a
`sendBeacon` — unconditionally on the configured endpoint value, with no
offline-mode guard (`none` becomes the literal `null` in the URL).  The
beacon is skipped only when `JSON.stringify(payload)` throws inside the
`try`. -/
def flushSync (enc : String → Option String) (st : SDKState) : SDKState × Option NetworkCall :=
  if st.isRecording = false then (st, none) else
  if st.eventBuffer.isEmpty && st.customEventBuffer.isEmpty && st.errorBuffer.isEmpty then
    (st, none)
  else
    let comp := compressEvents enc st.eventBuffer
    let payload : Payload := ⟨st.sessionId, st.userId, st.appId, comp,
      st.customEventBuffer, st.errorBuffer⟩
    if payloadSerializable comp st.customEventBuffer st.errorBuffer then
      (st, some (.beaconCall st.apiEndpoint payload))
    else (st, none)

/-- Models the body of the periodic batch timer installed by
`setupTimers`: flush only when `eventBuffer` or `customEventBuffer` is
non-empty (the error buffer is not consulted). -/
def batchTick (enc : String → Option String) (st : SDKState) (mid : MidFlight)
    (deliveryOk : Bool) (now : Nat) : SDKState × Option NetworkCall :=
  if st.eventBuffer.length > 0 || st.customEventBuffer.length > 0 then
    flush enc st mid deliveryOk now
  else (st, none)

/-- The record inserted by the `i`-th call of `saveEventLocal` in an
insertion sequence with timestamp function `ts` and event function `ev`
(the call uses `i` itself as the `Math.random()` component of the key, so
keys are pairwise distinct). -/
def singleRecordAt (sessionId : String) (ts : Nat → Nat) (ev : Nat → JValue)
    (i : Nat) : StoreKey × StoreRecord :=
  (StoreKey.eventKey (ts i) i, StoreRecord.single (ev i) sessionId (ts i) false)

/-- `n` successive `saveEventLocal` insertions into an initially empty
store with capacity `k`; insertion `i` carries timestamp `ts i`. -/
def insertLoop (k : Nat) (sessionId : String) (ts : Nat → Nat) (ev : Nat → JValue) : Nat → Store
  | 0 => []
  | n + 1 => saveEventLocal k sessionId (ev n) (ts n) n (insertLoop k sessionId ts ev n)

/-- The concrete state of the C2 scenario: recording, endpoint
configured, local storage enabled, three buffered custom events, empty
store. -/
def c2StartState : SDKState :=
  ⟨true, some "https://api", "k", "app", "sess", none, 50, 1000, true,
    [], [JValue.jstr "a", JValue.jstr "b", JValue.jstr "c"], [], [], []⟩

/-- The concrete offline state of the C3 scenario: no `apiEndpoint`,
recording, one buffered visual event. -/
def c3OfflineState : SDKState :=
  ⟨true, none, "k", "app", "sess", none, 50, 1000, false,
    [JValue.jobj [("type", JValue.jnum 2)]], [], [], [], []⟩

/-- C1: for every batch whose delivery fails, `flush` re-prepends the
batch's visual events, custom events and error events to the front of
their respective in-memory buffers, preserving the batch's original
relative order, so that every event of the failed batch appears before
any event enqueued after the failed flush began (the `mid` events). -/
theorem c1_retry_order (enc : String → Option String) (st : SDKState) (mid : MidFlight)
    (now : Nat) (ep : String)
    (hrec : st.isRecording = true) (hep : st.apiEndpoint = some ep)
    (hne : (st.eventBuffer.isEmpty && st.customEventBuffer.isEmpty &&
      st.errorBuffer.isEmpty) = false) :
    (flush enc st mid false now).1.eventBuffer = st.eventBuffer ++ mid.events ∧
    (flush enc st mid false now).1.customEventBuffer = st.customEventBuffer ++ mid.customEvents ∧
    (flush enc st mid false now).1.errorBuffer = st.errorBuffer ++ mid.errors := by
  cases hloc : st.enableLocalStorage <;>
  cases hser : payloadSerializable (compressEvents enc st.eventBuffer)
      st.customEventBuffer st.errorBuffer <;>
  simp [flush, hrec, hep, hne, hser, appendMid, flushFailure, saveFailedBatch, hloc]

/-- C1 witness: a concrete failed flush with one buffered visual event
and one mid-flight visual event. -/
theorem c1_retry_order_witness :
    (flush (fun s => some s)
      (⟨true, some "e", "k", "app", "sess", none, 50, 1000, true,
        [JValue.jstr "v1"], [], [], [], []⟩ : SDKState)
      ⟨[JValue.jstr "v2"], [], []⟩ false 9).1.eventBuffer =
        [JValue.jstr "v1"] ++ [JValue.jstr "v2"] ∧
    (flush (fun s => some s)
      (⟨true, some "e", "k", "app", "sess", none, 50, 1000, true,
        [JValue.jstr "v1"], [], [], [], []⟩ : SDKState)
      ⟨[JValue.jstr "v2"], [], []⟩ false 9).1.customEventBuffer = [] ++ [] ∧
    (flush (fun s => some s)
      (⟨true, some "e", "k", "app", "sess", none, 50, 1000, true,
        [JValue.jstr "v1"], [], [], [], []⟩ : SDKState)
      ⟨[JValue.jstr "v2"], [], []⟩ false 9).1.errorBuffer = [] ++ [] :=
  c1_retry_order (fun s => some s)
    (⟨true, some "e", "k", "app", "sess", none, 50, 1000, true,
      [JValue.jstr "v1"], [], [], [], []⟩ : SDKState)
    ⟨[JValue.jstr "v2"], [], []⟩ 9 "e" rfl rfl rfl

/-- C2 counterexample: run the spec's own scenario — a flush of three
custom events fails (persisting a `batch_100` overflow record), then the
next flush succeeds.  The batch record is still in the store afterwards:
`clearSyncedEvents` removes only `event_…` keys with `synced: true` and
never touches `batch_…` keys, so the claim that the next successful
flush removes the failed-batch record is false. -/
theorem c2_counterexample :
    ((flush (fun s => some s)
        (flush (fun s => some s) c2StartState ⟨[], [], []⟩ false 100).1
        ⟨[], [], []⟩ true 200).1).store =
      [(StoreKey.batchKey 100,
        StoreRecord.batch [] [JValue.jstr "a", JValue.jstr "b", JValue.jstr "c"] []
          "sess" 100 0)] := rfl

/-- C2 amended: a successful flush runs `clearSyncedEvents`, which
removes only records whose key starts with `event_` and whose `synced`
flag is true; every other overflow record — in particular every
`batch_…` failed-batch record — survives the successful flush. -/
theorem c2_amended_purge (enc : String → Option String) (st : SDKState) (mid : MidFlight)
    (now : Nat) (ep : String)
    (hrec : st.isRecording = true) (hep : st.apiEndpoint = some ep)
    (hloc : st.enableLocalStorage = true)
    (hne : (st.eventBuffer.isEmpty && st.customEventBuffer.isEmpty &&
      st.errorBuffer.isEmpty) = false)
    (hser : payloadSerializable (compressEvents enc st.eventBuffer)
      st.customEventBuffer st.errorBuffer = true) :
    (flush enc st mid true now).1.store = clearSyncedEvents st.store ∧
    (∀ k r, (k, r) ∈ st.store → (isEventKey k && recordSynced r) = false →
      (k, r) ∈ (flush enc st mid true now).1.store) ∧
    (∀ k r, (k, r) ∈ st.store → (isEventKey k && recordSynced r) = true →
      (k, r) ∉ (flush enc st mid true now).1.store) := by
  have hstore : (flush enc st mid true now).1.store = clearSyncedEvents st.store := by
    simp [flush, hrec, hep, hne, hser, appendMid, flushSuccess, hloc]
  refine ⟨hstore, ?_, ?_⟩
  · intro k r hmem hcond
    rw [hstore]
    exact List.mem_filter.2 ⟨hmem, by simp [hcond]⟩
  · intro k r hmem hcond habs
    rw [hstore] at habs
    have := (List.mem_filter.1 habs).2
    simp [hcond] at this

/-- C2 amended witness: a concrete successful flush over a store holding
one batch record and one synced single-event record. -/
theorem c2_amended_purge_witness :
    (flush (fun s => some s)
      (⟨true, some "e", "k", "app", "sess", none, 50, 1000, true,
        [], [JValue.jstr "a"], [],
        [(StoreKey.batchKey 1, StoreRecord.batch [] [] [] "sess" 1 0),
         (StoreKey.eventKey 2 0, StoreRecord.single JValue.jnull "sess" 2 true)],
        []⟩ : SDKState) ⟨[], [], []⟩ true 7).1.store =
      clearSyncedEvents
        [(StoreKey.batchKey 1, StoreRecord.batch [] [] [] "sess" 1 0),
         (StoreKey.eventKey 2 0, StoreRecord.single JValue.jnull "sess" 2 true)] :=
  (c2_amended_purge (fun s => some s)
    (⟨true, some "e", "k", "app", "sess", none, 50, 1000, true,
      [], [JValue.jstr "a"], [],
      [(StoreKey.batchKey 1, StoreRecord.batch [] [] [] "sess" 1 0),
       (StoreKey.eventKey 2 0, StoreRecord.single JValue.jnull "sess" 2 true)],
      []⟩ : SDKState) ⟨[], [], []⟩ 7 "e" rfl rfl rfl rfl rfl).1

/-- C3 failing input: with `apiEndpoint` unset, the unload path
`flushSync` still calls `navigator.sendBeacon` — its URL template is
interpolated with the raw `null` endpoint and the call is not guarded,
so a network request is issued, contradicting the claim that no network
call ever occurs in offline mode.  (The asynchronous `flush` path and
`exportEvents` do behave as claimed; only `flushSync` lacks the offline
guard that every other network-touching method has.) -/
theorem c3_offline_beacon :
    flushSync (fun _ => none) c3OfflineState =
      (c3OfflineState,
        some (NetworkCall.beaconCall none
          ⟨"sess", none, "app",
            ⟨false, Sum.inr [JValue.jobj [("type", JValue.jnum 2)]]⟩, [], []⟩)) := rfl

/-- C4 counterexample: a periodic timer tick with only the error buffer
non-empty does not trigger a flush — the timer callback tests only
`eventBuffer` and `customEventBuffer` — although a direct flush of the
same state would have issued a delivery. -/
theorem c4_counterexample :
    batchTick (fun s => some s)
      (⟨true, some "e", "k", "app", "sess", none, 50, 1000, false,
        [], [], [JValue.jstr "err"], [], []⟩ : SDKState) ⟨[], [], []⟩ true 0 =
      ((⟨true, some "e", "k", "app", "sess", none, 50, 1000, false,
        [], [], [JValue.jstr "err"], [], []⟩ : SDKState), none) ∧
    (⟨true, some "e", "k", "app", "sess", none, 50, 1000, false,
      [], [], [JValue.jstr "err"], [], []⟩ : SDKState).errorBuffer ≠ [] ∧
    (flush (fun s => some s)
      (⟨true, some "e", "k", "app", "sess", none, 50, 1000, false,
        [], [], [JValue.jstr "err"], [], []⟩ : SDKState)
      ⟨[], [], []⟩ true 0).2.isSome = true :=
  ⟨rfl, by simp, rfl⟩

/-- C4 amended: the periodic batch timer requests a flush exactly when
the visual-event buffer or the custom-event buffer is non-empty; a tick
on which both are empty — in particular one where only the error buffer
is non-empty — performs no flush and leaves the state unchanged. -/
theorem c4_amended_tick (enc : String → Option String) (st : SDKState) (mid : MidFlight)
    (deliveryOk : Bool) (now : Nat) :
    (st.eventBuffer = [] ∧ st.customEventBuffer = [] →
      batchTick enc st mid deliveryOk now = (st, none)) ∧
    (st.eventBuffer ≠ [] ∨ st.customEventBuffer ≠ [] →
      batchTick enc st mid deliveryOk now = flush enc st mid deliveryOk now) := by
  constructor
  · rintro ⟨h1, h2⟩
    simp [batchTick, h1, h2]
  · intro h
    have hcond : (decide (st.eventBuffer.length > 0) ||
        decide (st.customEventBuffer.length > 0)) = true := by
      rcases h with h | h
      · simp [List.length_pos.2 h]
      · simp [List.length_pos.2 h]
    simp only [batchTick]
    rw [if_pos]
    exact hcond

/-- C4 amended witness: a tick with a non-empty visual buffer flushes. -/
theorem c4_amended_tick_witness :
    batchTick (fun s => some s)
      (⟨true, some "e", "k", "app", "sess", none, 50, 1000, false,
        [JValue.jnull], [], [], [], []⟩ : SDKState) ⟨[], [], []⟩ true 3 =
      flush (fun s => some s)
        (⟨true, some "e", "k", "app", "sess", none, 50, 1000, false,
          [JValue.jnull], [], [], [], []⟩ : SDKState) ⟨[], [], []⟩ true 3 :=
  (c4_amended_tick (fun s => some s)
    (⟨true, some "e", "k", "app", "sess", none, 50, 1000, false,
      [JValue.jnull], [], [], [], []⟩ : SDKState) ⟨[], [], []⟩ true 3).2
    (Or.inl (by simp))

/-- C6: when all three buffers are empty, `flush` and `flushSync` issue
no network call and return the pipeline state unchanged, for every
compression oracle and delivery outcome. -/
theorem c6_empty_flush_noop (enc : String → Option String) (st : SDKState) (mid : MidFlight)
    (deliveryOk : Bool) (now : Nat)
    (he : st.eventBuffer = []) (hc : st.customEventBuffer = [])
    (herr : st.errorBuffer = []) :
    flush enc st mid deliveryOk now = (st, none) ∧ flushSync enc st = (st, none) := by
  cases hrec : st.isRecording <;> simp [flush, flushSync, he, hc, herr, hrec]

/-- C6 witness: a concrete recording state with empty buffers. -/
theorem c6_empty_flush_noop_witness :
    flush (fun s => some s)
      (⟨true, some "e", "k", "app", "sess", none, 50, 1000, true,
        [], [], [], [], []⟩ : SDKState) ⟨[], [], []⟩ true 0 =
      ((⟨true, some "e", "k", "app", "sess", none, 50, 1000, true,
        [], [], [], [], []⟩ : SDKState), none) ∧
    flushSync (fun s => some s)
      (⟨true, some "e", "k", "app", "sess", none, 50, 1000, true,
        [], [], [], [], []⟩ : SDKState) =
      ((⟨true, some "e", "k", "app", "sess", none, 50, 1000, true,
        [], [], [], [], []⟩ : SDKState), none) :=
  c6_empty_flush_noop (fun s => some s)
    (⟨true, some "e", "k", "app", "sess", none, 50, 1000, true,
      [], [], [], [], []⟩ : SDKState) ⟨[], [], []⟩ true 0 rfl rfl rfl

/-- C7: `compressEvents` always returns one of the two contract shapes —
`⟨compressed: true, data: transportString⟩` on success or
`⟨compressed: false, data: events⟩` with the original events unchanged on
any internal failure — for every event sequence and every behaviour of
the external compression chain; the function is total, so compression
failure never throws and never blocks delivery. -/
theorem c7_compress_shape (enc : String → Option String) (events : List JValue) :
    (∃ s, compressEvents enc events = ⟨true, Sum.inl s⟩) ∨
    compressEvents enc events = ⟨false, Sum.inr events⟩ := by
  cases hs : stringifyV (JValue.jarr events) with
  | none => exact Or.inr (by simp [compressEvents, hs])
  | some s =>
      cases he : enc s with
      | some b64 => exact Or.inl ⟨b64, by simp [compressEvents, hs, he]⟩
      | none => exact Or.inr (by simp [compressEvents, hs, he])

/-- C8 failing input: while recording, `capture` on a payload containing
a value `JSON.stringify` rejects (a circular structure) propagates the
thrown `TypeError` to the host application — `sanitizeData`'s deep clone
has no `try`/`catch`, and neither do `captureCustomEvent` or `capture`.
This contradicts the claim that the public capture path never lets an
exception escape. -/
theorem c8_capture_throws :
    capture (fun s => s)
      (⟨true, none, "k", "app", "sess", none, 50, 1000, false,
        [], [], [], [], []⟩ : SDKState)
      "checkout" (JValue.jobj [("self", JValue.junser)]) 0 (JValue.jobj []) =
      Except.error "TypeError: Converting circular structure to JSON" := rfl

/-- Inserting an element whose timestamp is at least every timestamp in
the list sends it to the end (stability of the descending sort). -/
theorem insertDesc_append_of_not_lt (x : StoreKey × Nat) (l : List (StoreKey × Nat))
    (h : ∀ y ∈ l, ¬ y.2 < x.2) : insertDesc x l = l ++ [x] := by
  induction l with
  | nil => rfl
  | cons y ys ih =>
      simp only [insertDesc]
      rw [if_neg (h y (List.mem_cons_self y ys)),
        ih (fun z hz => h z (List.mem_cons_of_mem y hz))]
      rfl

/-- Sorting a strictly-ascending-by-timestamp list descending by
timestamp reverses it. -/
theorem sortDesc_of_ascending (l : List (StoreKey × Nat))
    (h : l.Pairwise (fun a b => a.2 < b.2)) : sortByTimestampDesc l = l.reverse := by
  induction l with
  | nil => rfl
  | cons x xs ih =>
      obtain ⟨h1, h2⟩ := List.pairwise_cons.1 h
      simp only [sortByTimestampDesc]
      rw [ih h2, insertDesc_append_of_not_lt]
      · simp
      · intro y hy
        exact Nat.lt_asymm (h1 y (List.mem_reverse.1 hy))

/-- Running `cleanOldEvents` with capacity `k` on a store of `k + 1`
single-event records with strictly increasing timestamps evicts exactly
the oldest record. -/
theorem cleanOldEvents_sorted_step (k a : Nat) (sid : String) (ts : Nat → Nat)
    (ev : Nat → JValue) (hts : StrictMono ts) :
    cleanOldEvents k ((List.range' a (k + 1)).map (singleRecordAt sid ts ev)) =
      (List.range' (a + 1) k).map (singleRecordAt sid ts ev) := by
  have hmapmap : ((List.range' a (k + 1)).map (singleRecordAt sid ts ev)).map
      (fun kr => (kr.1, timestampOf kr.2)) =
      (List.range' a (k + 1)).map (fun i => (StoreKey.eventKey (ts i) i, ts i)) := by
    rw [List.map_map]; rfl
  have hasc : ((List.range' a (k + 1)).map
      (fun i => (StoreKey.eventKey (ts i) i, ts i))).Pairwise (fun p q => p.2 < q.2) :=
    List.Pairwise.map _ (fun i j hij => hts hij) (List.pairwise_lt_range' a (k + 1))
  simp only [cleanOldEvents]
  rw [hmapmap, sortDesc_of_ascending _ hasc]
  have hsplit : List.range' a (k + 1) = a :: List.range' (a + 1) k := List.range'_succ a k 1
  rw [hsplit]
  simp only [List.map_cons, List.reverse_cons]
  have hlen : (((List.range' (a + 1) k).map
      (fun i => (StoreKey.eventKey (ts i) i, ts i))).reverse).length = k := by simp
  rw [List.drop_left' hlen]
  simp only [List.any_cons, List.any_nil, Bool.or_false]
  rw [List.filter_cons]
  rw [if_neg (by simp [singleRecordAt])]
  refine List.filter_eq_self.2 ?_
  intro kr hkr
  obtain ⟨i, hi, rfl⟩ := List.mem_map.1 hkr
  have hia : a + 1 ≤ i := (List.mem_range'_1.1 hi).1
  simp only [singleRecordAt, Bool.not_eq_true']
  rw [beq_eq_false_iff_ne]
  intro habs
  injection habs with h1 h2
  omega

/-- Invariant of the insertion loop: after `n` insertions with strictly
increasing timestamps, the store holds exactly the `min n k` most recent
records, in insertion order. -/
theorem insertLoop_eq (k : Nat) (sid : String) (ts : Nat → Nat) (ev : Nat → JValue)
    (hts : StrictMono ts) (n : Nat) :
    insertLoop k sid ts ev n =
      (List.range' (n - min n k) (min n k)).map (singleRecordAt sid ts ev) := by
  induction n with
  | zero => simp [insertLoop]
  | succ n ih =>
      rw [insertLoop, ih]
      unfold saveEventLocal
      have hmin : min n k ≤ n := Nat.min_le_left n k
      have hsub : n - min n k + min n k = n := Nat.sub_add_cancel hmin
      have hstore1 : (List.range' (n - min n k) (min n k)).map (singleRecordAt sid ts ev) ++
          [(StoreKey.eventKey (ts n) n, StoreRecord.single (ev n) sid (ts n) false)] =
          (List.range' (n - min n k) (min n k + 1)).map (singleRecordAt sid ts ev) := by
        rw [List.range'_1_concat, List.map_append, hsub]
        rfl
      rw [hstore1]
      have hlen : ((List.range' (n - min n k) (min n k + 1)).map
          (singleRecordAt sid ts ev)).length = min n k + 1 := by simp
      by_cases hnk : n < k
      · have hm : min n k = n := Nat.min_eq_left (Nat.le_of_lt hnk)
        rw [if_neg (by rw [hlen, hm]; omega)]
        have hm1 : min (n + 1) k = n + 1 := Nat.min_eq_left hnk
        rw [hm, hm1, Nat.sub_self, Nat.sub_self]
      · have hk : k ≤ n := Nat.le_of_not_lt hnk
        have hm : min n k = k := Nat.min_eq_right hk
        rw [if_pos (by rw [hlen, hm]; omega)]
        rw [hm, cleanOldEvents_sorted_step k (n - k) sid ts ev hts]
        have hm1 : min (n + 1) k = k := Nat.min_eq_right (Nat.le_succ_of_le hk)
        rw [hm1, Nat.succ_sub hk]

/-- C5: after `N` single-event insertions into an initially empty store
with capacity `maxLocalEvents = k < N` and strictly increasing
timestamps, the store holds exactly the `k` most recent single-event
records by timestamp (insertions `N - k` through `N - 1`), in order:
each insertion beyond the cap evicts the oldest records by timestamp
down to the cap. -/
theorem c5_eviction_bound (k N : Nat) (sid : String) (ts : Nat → Nat) (ev : Nat → JValue)
    (hts : StrictMono ts) (hkN : k < N) :
    insertLoop k sid ts ev N = (List.range' (N - k) k).map (singleRecordAt sid ts ev) := by
  rw [insertLoop_eq k sid ts ev hts N, Nat.min_eq_right (Nat.le_of_lt hkN)]

/-- C5 witness: three insertions with capacity two keep records 1 and 2. -/
theorem c5_eviction_bound_witness :
    insertLoop 2 "sess" (fun i => i) (fun _ => JValue.jnull) 3 =
      (List.range' 1 2).map (singleRecordAt "sess" (fun i => i) (fun _ => JValue.jnull)) :=
  c5_eviction_bound 2 3 "sess" (fun i => i) (fun _ => JValue.jnull)
    (fun _ _ h => h) (by decide)

/-- Unfolding lemma: `captureCustomEvent` on a payload the sanitizer
accepts appends exactly one `mkCustomEventObj` event to the custom
buffer and touches nothing else. -/
theorem captureCustomEvent_ok_eq (rw : String → String) (st : SDKState) (ty : String)
    (d : JValue) (now : Nat) (ctx : JValue) (sd : JValue)
    (hs : sanitizeData rw d = .ok sd) :
    captureCustomEvent rw st ty d now ctx =
      .ok ({st with customEventBuffer :=
          st.customEventBuffer ++ [mkCustomEventObj st.sessionId ty sd now ctx]},
        decide ((st.customEventBuffer ++
          [mkCustomEventObj st.sessionId ty sd now ctx]).length ≥ 10)) := by
  simp [captureCustomEvent, hs]

/-- The built custom-event object carries the session identifier it was
constructed with. -/
theorem jfieldGet_mkCustomEventObj_sessionId (sid ty : String) (sd : JValue) (now : Nat)
    (ctx : JValue) :
    jfieldGet (mkCustomEventObj sid ty sd now ctx) "sessionId" = some (.jstr sid) := by
  simp [mkCustomEventObj, jfieldGet, fieldGet]

/-- The built custom-event object carries the event type it was
constructed with. -/
theorem jfieldGet_mkCustomEventObj_eventType (sid ty : String) (sd : JValue) (now : Nat)
    (ctx : JValue) :
    jfieldGet (mkCustomEventObj sid ty sd now ctx) "eventType" = some (.jstr ty) := by
  simp [mkCustomEventObj, jfieldGet, fieldGet]

/-- C9 counterexample: `handleRRWebEvent` pushes the raw rrweb event —
which carries no `sessionId` field — directly onto `eventBuffer`, so a
reachable buffer holds an event that does not carry the active session
identifier, contradicting the claim that every buffered event does. -/
theorem c9_counterexample :
    (handleRRWebEvent
      (⟨true, some "e", "k", "app", "sess", none, 50, 1000, false,
        [], [], [], [], []⟩ : SDKState)
      (JValue.jobj [("type", JValue.jnum 2), ("timestamp", JValue.jnum 5)])
      0 0).1.eventBuffer =
      [JValue.jobj [("type", JValue.jnum 2), ("timestamp", JValue.jnum 5)]] ∧
    jfieldGet (JValue.jobj [("type", JValue.jnum 2), ("timestamp", JValue.jnum 5)])
      "sessionId" = none :=
  ⟨rfl, rfl⟩

/-- C9 amended: custom events and error events are stamped with the
`sessionId` active at buffering time, and every enqueue operation is
append-only (it never rewrites previously buffered events); visual
events, however, are buffered exactly as received from rrweb, with no
`sessionId` field added. -/
theorem c9_amended_session_stamp (rw : String → String) (st : SDKState) (ty : String)
    (d : JValue) (now rand : Nat) (ctx ev : JValue)
    (errorData : List (String × JValue)) {p : SDKState × Bool}
    (h : captureCustomEvent rw st ty d now ctx = .ok p) :
    (∃ e, p.1.customEventBuffer = st.customEventBuffer ++ [e] ∧
      jfieldGet e "sessionId" = some (.jstr st.sessionId) ∧
      p.1.eventBuffer = st.eventBuffer ∧ p.1.errorBuffer = st.errorBuffer) ∧
    (∃ e, (captureError st errorData now ctx).1.errorBuffer = st.errorBuffer ++ [e] ∧
      jfieldGet e "sessionId" = some (.jstr st.sessionId)) ∧
    (handleRRWebEvent st ev now rand).1.eventBuffer = st.eventBuffer ++ [ev] := by
  refine ⟨?_, ?_, ?_⟩
  · cases hs : sanitizeData rw d with
    | error e => simp [captureCustomEvent, hs] at h
    | ok sd =>
        rw [captureCustomEvent_ok_eq rw st ty d now ctx sd hs] at h
        obtain rfl := Except.ok.inj h
        exact ⟨_, rfl, jfieldGet_mkCustomEventObj_sessionId _ _ _ _ _, rfl, rfl⟩
  · exact ⟨_, rfl, by simp [captureError, jfieldGet, fieldGet, List.foldl_append]⟩
  · cases hl : st.enableLocalStorage <;> simp [handleRRWebEvent, hl]

/-- C9 amended witness: one concrete custom-event capture on a
recording state. -/
theorem c9_amended_session_stamp_witness :
    (∃ e, ((⟨true, some "u", "k", "app", "sess", none, 50, 1000, false,
        [], [JValue.jobj [("type", JValue.jstr "custom"),
          ("eventType", JValue.jstr "signup"), ("data", JValue.jstr "hi"),
          ("timestamp", JValue.jnum 3), ("sessionId", JValue.jstr "sess"),
          ("context", JValue.jobj [])]], [], [], []⟩ : SDKState),
        false).1.customEventBuffer = [] ++ [e] ∧
      jfieldGet e "sessionId" = some (.jstr "sess") ∧
      ((⟨true, some "u", "k", "app", "sess", none, 50, 1000, false,
        [], [JValue.jobj [("type", JValue.jstr "custom"),
          ("eventType", JValue.jstr "signup"), ("data", JValue.jstr "hi"),
          ("timestamp", JValue.jnum 3), ("sessionId", JValue.jstr "sess"),
          ("context", JValue.jobj [])]], [], [], []⟩ : SDKState),
        false).1.eventBuffer = [] ∧
      ((⟨true, some "u", "k", "app", "sess", none, 50, 1000, false,
        [], [JValue.jobj [("type", JValue.jstr "custom"),
          ("eventType", JValue.jstr "signup"), ("data", JValue.jstr "hi"),
          ("timestamp", JValue.jnum 3), ("sessionId", JValue.jstr "sess"),
          ("context", JValue.jobj [])]], [], [], []⟩ : SDKState),
        false).1.errorBuffer = []) ∧
    (∃ e, (captureError
        (⟨true, some "u", "k", "app", "sess", none, 50, 1000, false,
          [], [], [], [], []⟩ : SDKState)
        [("message", JValue.jstr "m")] 3 (JValue.jobj [])).1.errorBuffer = [] ++ [e] ∧
      jfieldGet e "sessionId" = some (.jstr "sess")) ∧
    (handleRRWebEvent
      (⟨true, some "u", "k", "app", "sess", none, 50, 1000, false,
        [], [], [], [], []⟩ : SDKState)
      (JValue.jobj [("type", JValue.jnum 2)]) 3 0).1.eventBuffer =
      [] ++ [JValue.jobj [("type", JValue.jnum 2)]] :=
  c9_amended_session_stamp (fun s => s)
    (⟨true, some "u", "k", "app", "sess", none, 50, 1000, false,
      [], [], [], [], []⟩ : SDKState)
    "signup" (JValue.jstr "hi") 3 0 (JValue.jobj [])
    (JValue.jobj [("type", JValue.jnum 2)]) [("message", JValue.jstr "m")] rfl

/-- C10: when `isRecording` is false the public `capture` is a no-op
leaving every buffer unchanged, while `setUser` and `addContext` carry
no `isRecording` guard: on every state — stopped included — each still
appends one custom event (`identify` / `context`) to
`customEventBuffer`, and `setUser` additionally overwrites `userId`.
(The serializability hypotheses say the payloads survive the sanitizer's
deep clone.) -/
theorem c10_public_api (rw : String → String) (st : SDKState) (name : String) (d : JValue)
    (uid : String) (meta : JValue) (context : List (String × JValue)) (now : Nat)
    (ctx : JValue)
    (hstop : st.isRecording = false)
    (hmeta : (stringifyV meta).isSome = true)
    (hctxf : (stringifyV (JValue.jobj context)).isSome = true) :
    capture rw st name d now ctx = .ok (st, false) ∧
    (∃ st1 f, setUser rw st uid meta now ctx = .ok (st1, f) ∧ st1.userId = some uid ∧
      ∃ e, st1.customEventBuffer = st.customEventBuffer ++ [e] ∧
        jfieldGet e "eventType" = some (.jstr "identify")) ∧
    (∃ st1 f, addContext rw st context now ctx = .ok (st1, f) ∧
      ∃ e, st1.customEventBuffer = st.customEventBuffer ++ [e] ∧
        jfieldGet e "eventType" = some (.jstr "context")) := by
  refine ⟨by simp [capture, hstop], ?_, ?_⟩
  · obtain ⟨m, hm⟩ := Option.isSome_iff_exists.1 hmeta
    have hsd : sanitizeData rw (JValue.jobj [("userId", .jstr uid), ("metadata", meta)]) =
        .ok (sanitizeValue rw (JValue.jobj [("userId", .jstr uid), ("metadata", meta)])) := by
      simp [sanitizeData, isFalsy, stringifyV, stringifyF, hm]
    exact ⟨_, _, captureCustomEvent_ok_eq rw _ "identify" _ now ctx _ hsd, rfl, _, rfl,
      jfieldGet_mkCustomEventObj_eventType _ _ _ _ _⟩
  · have hsd : sanitizeData rw (JValue.jobj context) =
        .ok (sanitizeValue rw (JValue.jobj context)) := by
      obtain ⟨s, hsome⟩ := Option.isSome_iff_exists.1 hctxf
      simp [sanitizeData, isFalsy, hsome]
    exact ⟨_, _, captureCustomEvent_ok_eq rw _ "context" _ now ctx _ hsd, _, rfl,
      jfieldGet_mkCustomEventObj_eventType _ _ _ _ _⟩

/-- C10 witness: a concrete stopped state with a serializable user
payload and context. -/
theorem c10_public_api_witness :
    capture (fun s => s)
      (⟨false, none, "k", "app", "sess", none, 50, 1000, false,
        [], [], [], [], []⟩ : SDKState) "n" JValue.jnull 0 (JValue.jobj []) =
      .ok ((⟨false, none, "k", "app", "sess", none, 50, 1000, false,
        [], [], [], [], []⟩ : SDKState), false) ∧
    (∃ st1 f, setUser (fun s => s)
        (⟨false, none, "k", "app", "sess", none, 50, 1000, false,
          [], [], [], [], []⟩ : SDKState) "u7" JValue.jnull 0 (JValue.jobj []) =
        .ok (st1, f) ∧ st1.userId = some "u7" ∧
      ∃ e, st1.customEventBuffer = [] ++ [e] ∧
        jfieldGet e "eventType" = some (.jstr "identify")) ∧
    (∃ st1 f, addContext (fun s => s)
        (⟨false, none, "k", "app", "sess", none, 50, 1000, false,
          [], [], [], [], []⟩ : SDKState) [("feature", JValue.jstr "checkout")] 0
        (JValue.jobj []) = .ok (st1, f) ∧
      ∃ e, st1.customEventBuffer = [] ++ [e] ∧
        jfieldGet e "eventType" = some (.jstr "context")) :=
  c10_public_api (fun s => s)
    (⟨false, none, "k", "app", "sess", none, 50, 1000, false,
      [], [], [], [], []⟩ : SDKState)
    "n" JValue.jnull "u7" JValue.jnull [("feature", JValue.jstr "checkout")] 0
    (JValue.jobj []) rfl rfl rfl

end SpectraView
